import Mathlib

/-!
Shallow embedding of `app.py` (Lead Synapse Mark III), a Streamlit page that
collects search parameters, builds a two-agent CrewAI crew and displays the
two markdown files the crew run leaves behind.

Conventions of the embedding:
* Strings standing for environment variables use `""` for an unset variable;
  Python treats both `None` (unset) and the empty string as falsy in every
  check the app performs, so the two collapse soundly.
* Streamlit calls that only paint the page (CSS, headers, cards) are not
  events; the events model the observable actions the claims talk about:
  form rendering, error messages, progress messages, the `kickoff` call,
  file reads and the result display.
* The CrewAI/Streamlit/Exa libraries are external: their data carriers
  (`Agent`, `Task`, `Crew`, `LLM`, slider semantics, the Exa response shape)
  are embedded as plain records holding exactly the fields `app.py` sets,
  and `kickoff` is an opaque outcome parameter (it either completes, leaving
  some files on disk and a result object, or raises).
-/

namespace LeadSynapse

/-- LLM provider options offered by the sidebar selectbox (`app.py` line 80). -/
inductive LLMOption
  | openai
  | groq
deriving DecidableEq, BEq, Repr

/-- Display name of a provider, as the selectbox string in `app.py`. -/
def llm_option_name : LLMOption → String
  | .openai => "OpenAI"
  | .groq => "Groq"

/-- Sidebar state that `setup_crew` reads from globals: provider choice,
model name and temperature slider value (rational stand-in for the float). -/
structure SidebarConfig where
  llm_option : LLMOption
  llm_model : String
  temperature : Rat
deriving DecidableEq, Repr

/-- The process environment as the run handler observes it via `os.getenv`;
`""` stands for an unset variable (both are falsy in the checks made). -/
structure Env where
  serper_api_key : String
  exa_api_key : String
  openai_api_key : String
  groq_api_key : String
deriving DecidableEq, Repr

/-- Python truthiness of the strings the app tests (`None`/`""` are falsy). -/
def truthy (s : String) : Bool := s != ""

/-- The `LLM(...)` config object built in `setup_crew` (lines 161-164). -/
structure LLM where
  model : String
  temperature : Rat
deriving DecidableEq, Repr

/-- LLM construction in `setup_crew`: provider prefix plus selected model. -/
def mkLLM (cfg : SidebarConfig) : LLM :=
  match cfg.llm_option with
  | .openai => { model := "openai/" ++ cfg.llm_model, temperature := cfg.temperature }
  | .groq => { model := "groq/" ++ cfg.llm_model, temperature := cfg.temperature }

/-- The two tool objects registered with agents (lines 166-168): the library
`SerperDevTool` and the decorated Exa function `search_and_get_contents_tool`. -/
inductive ToolRef
  | serperDevTool
  | exaSearchAndContents
deriving DecidableEq, BEq, Repr

/-- An `Agent(...)` as constructed by `app.py`: exactly the keyword fields
`setup_crew` passes. -/
structure Agent where
  role : String
  goal : String
  backstory : String
  memory : Bool
  verbose : Bool
  llm : LLM
  tools : List ToolRef
deriving DecidableEq, Repr

/-- A `Task(...)` as constructed by `app.py`. CrewAI lets `agent` be absent
and `context` be a list of other tasks, so the embedding keeps an
`Option Agent` and a nested task list (hence an inductive rather than a
structure). -/
inductive Task
  | mk (description : String) (expected_output : String) (agent : Option Agent)
      (context : List Task) (output_file : String)

/-- Description field of a task. -/
def Task.description : Task → String
  | .mk d _ _ _ _ => d

/-- Expected-output field of a task. -/
def Task.expected_output : Task → String
  | .mk _ e _ _ _ => e

/-- Agent a task is bound to, when one is set. -/
def Task.agent : Task → Option Agent
  | .mk _ _ a _ _ => a

/-- Context hand-off list of a task. -/
def Task.context : Task → List Task
  | .mk _ _ _ c _ => c

/-- Output-file path of a task. -/
def Task.output_file : Task → String
  | .mk _ _ _ _ o => o

/-- CrewAI execution process selector. -/
inductive Process
  | sequential
  | hierarchical
deriving DecidableEq, BEq, Repr

/-- A `Crew(...)` as constructed by `app.py` line 255. -/
structure Crew where
  agents : List Agent
  tasks : List Task
  process : Process

/-- The company-finder agent (lines 171-183). -/
def company_finder_agent (cfg : SidebarConfig) (domain area : String)
    (num_companies : Nat) : Agent :=
  { role := "Company Discovery Specialist"
    goal := "Identify and extract a list of " ++ toString num_companies ++
      " companies based on the " ++ domain ++ " industry domain in " ++ area ++
      " for business development outreach."
    backstory :=
      "You are a highly skilled research agent trained in identifying companies using real-time and semantic search tools. " ++
      "Your job is to find, evaluate, and compile a list of potential companies operating in a given sector within a specified region. " ++
      "Your output should be relevant, well-structured, and useful for the business development team to begin outreach."
    memory := true
    verbose := true
    llm := mkLLM cfg
    tools := [ToolRef.serperDevTool] }

/-- Description template of the company-finder task (lines 186-198). -/
def company_finder_task_description (num_companies : Nat)
    (domain area : String) : String :=
  "Use online tools to find and extract a comprehensive list of " ++
    toString num_companies ++ " companies that operate in the **" ++ domain ++
    "** domain within the **" ++ area ++
    "** region. You should use semantic and real-time search to ensure high relevance and accuracy.\n\n" ++
    "For each company, try to gather:\n" ++
    "1. Company Name\n" ++
    "2. Website URL\n" ++
    "3. Brief Description\n" ++
    "4. Industry tags or keywords\n" ++
    "5. Location (City/Country if available)\n" ++
    "6. Any public contact or LinkedIn URL (if accessible)\n\n" ++
    "The list should contain " ++ toString num_companies ++
    " companies that are relevant and active in the domain and location specified. " ++
    "Prioritize companies that are startups, scale-ups, or industry leaders."

/-- Expected-output text of the company-finder task (lines 199-203). -/
def company_finder_task_expected_output : String :=
  "A markdown file titled `companies.md` that contains a well-formatted list of companies matching the given domain and location. " ++
    "Each entry should include the company name, description, website, and any additional available metadata like location or contact info. " ++
    "The file should be structured with headings and bullet points for easy reading by the business development team."

/-- The company-finder task (lines 185-206). -/
def company_finder_task (cfg : SidebarConfig) (domain area : String)
    (num_companies : Nat) : Task :=
  Task.mk
    (company_finder_task_description num_companies domain area)
    company_finder_task_expected_output
    (some (company_finder_agent cfg domain area num_companies))
    []
    "companies.md"

/-- The LinkedIn prospector agent (lines 209-217). -/
def linkedin_agent (cfg : SidebarConfig) (contacts_per_company : Nat) : Agent :=
  { role := "LinkedIn Prospector"
    goal := "Find " ++ toString contacts_per_company ++
      " professional profiles from each company identified"
    backstory :=
      "An expert in finding people on LinkedIn, able to search and extract names and profile URLs using web and semantic search tools."
    memory := true
    verbose := true
    llm := mkLLM cfg
    tools := [ToolRef.exaSearchAndContents] }

/-- Description template of the LinkedIn task (lines 220-229). -/
def linkedin_task_description (contacts_per_company : Nat) : String :=
  "For each company identified by the company_finder_task, research and identify " ++
      toString contacts_per_company ++ " key decision-makers " ++
      "who would be ideal contacts for business development outreach. Focus on executives with authority to " ++
      "make partnership or purchasing decisions.\n\n" ++
      "Target roles should include: Founder, CEO, CTO, COO, CMO, VP/Director/Head of Business Development, " ++
      "Partnerships, Product, Sales, Marketing, or Growth. Verify that each person currently works at the company " ++
      "based on their LinkedIn profile information.\n\n" ++
      "For companies with fewer than 50 employees, prioritize C-level executives. For larger companies, " ++
      "focus on department heads or directors most relevant to your specific offering."

/-- Expected-output template of the LinkedIn task (lines 230-248). -/
def linkedin_task_expected_output (contacts_per_company : Nat) : String :=
  "A markdown file named `people.md` with the following structure:\n\n" ++
      "**Company Name**\n\n" ++
      "- [Full Name](LinkedIn_URL) - Current Role\n" ++
      "- [Full Name](LinkedIn_URL) - Current Role\n" ++
      "- [Full Name](LinkedIn_URL) - Current Role\n\n" ++
      "**Next Company Name**\n\n" ++
      "- [Full Name](LinkedIn_URL) - Current Role\n" ++
      "- [Full Name](LinkedIn_URL) - Current Role\n\n" ++
      "Requirements:\n" ++
      "1. Include ONLY people with verified current employment at the company\n" ++
      "2. Format LinkedIn URLs as clickable markdown links with the person\x27s name as the anchor text\n" ++
      "3. Ensure all LinkedIn URLs are valid and direct to the specific profile\n" ++
      "4. Use bold formatting for company names (with ** not as headers with #)\n" ++
      "5. Insert one blank line between each person\x27s entry and two blank lines between companies\n" ++
      "6. Do not use any other markdown formatting elements like headers, bullet points, or code blocks\n" ++
      "7. Include " ++ toString contacts_per_company ++ " contacts per company"

/-- The LinkedIn prospecting task (lines 219-252); its `context` carries the
company-finder task. -/
def linkedin_task (cfg : SidebarConfig) (domain area : String)
    (num_companies contacts_per_company : Nat) : Task :=
  Task.mk
    (linkedin_task_description contacts_per_company)
    (linkedin_task_expected_output contacts_per_company)
    (some (linkedin_agent cfg contacts_per_company))
    [company_finder_task cfg domain area num_companies]
    "people.md"

/-- Crew assembly, `setup_crew` in `app.py` (lines 159-261). -/
def setup_crew (cfg : SidebarConfig) (domain area : String)
    (num_companies contacts_per_company : Nat) : Crew :=
  { agents := [company_finder_agent cfg domain area num_companies,
               linkedin_agent cfg contacts_per_company]
    tasks := [company_finder_task cfg domain area num_companies,
              linkedin_task cfg domain area num_companies contacts_per_company]
    process := Process.sequential }

/-- One Exa search result as the tool consumes it: title, url, highlights. -/
structure ExaResult where
  title : String
  url : String
  highlights : List String
deriving DecidableEq, Repr

/-- The response object of `exa.search_and_contents`. -/
structure ExaResponse where
  results : List ExaResult
deriving DecidableEq, Repr

/-- The request the tool sends to the hosted Exa API (lines 142-147). -/
structure ExaRequest where
  query : String
  type : String
  num_results : Nat
  highlights : Bool
deriving DecidableEq, Repr

/-- Request construction in `search_and_get_contents_tool`: the question is
forwarded verbatim, the remaining parameters are fixed. -/
def exaSearchRequest (question : String) : ExaRequest :=
  { query := question, type := "neural", num_results := 30, highlights := true }

/-- One block of the tool output for the result at index `idx` (lines 150-152). -/
def exaRenderResult (idx : Nat) (result : ExaResult) : String :=
  "<Title id=" ++ toString idx ++ ">" ++ result.title ++ "</Title>\n" ++
  "<URL id=" ++ toString idx ++ ">" ++ result.url ++ "</URL>\n" ++
  "<Highlight id=" ++ toString idx ++ ">" ++
    String.intercalate " | " result.highlights ++ "</Highlight>"

/-- The parsing step of `search_and_get_contents_tool` (lines 149-156): the
enumerated blocks joined by a double newline. -/
def search_and_get_contents_tool (response : ExaResponse) : String :=
  String.intercalate "\n\n"
    (response.results.enum.map (fun p => exaRenderResult p.1 p.2))

/-- Whole-tool behaviour (lines 137-156): invoked on a question, it issues
exactly one hosted API request (built from the question) and returns the
rendering of whatever response comes back. -/
def run_search_and_get_contents_tool (question : String) (response : ExaResponse) :
    List ExaRequest × String :=
  ([exaSearchRequest question], search_and_get_contents_tool response)

/-- The search form of `app.py` (lines 111-134): labelled free-text inputs
with placeholders, sliders as (label, min, max, default) and a submit button. -/
structure FormSpec where
  text_inputs : List (String × String)
  sliders : List (String × Nat × Nat × Nat)
  submit_label : String
deriving DecidableEq, Repr

/-- The concrete form the page renders. -/
def search_form : FormSpec :=
  { text_inputs := [("Industry Domain", "e.g., healthcare, fintech, SaaS"),
                    ("Geographic Area", "e.g., New York, London, Singapore")]
    sliders := [("Number of Companies to Find", 5, 30, 15),
                ("Contacts per Company", 1, 5, 3)]
    submit_label := "Start Lead Generation" }

/-- Value a Streamlit slider with bounds `minv`/`maxv` hands back for a user
position `choice`: the widget only produces values inside its bounds. -/
def st_slider (minv maxv choice : Nat) : Nat := max minv (min maxv choice)

/-- Observable actions of the page, in the order the script performs them. -/
inductive Event
  | renderForm (form : FormSpec)
  | showError (msg : String)
  | progress (msg : String)
  | kickoffCall (crew : Crew) (inputs : List (String × String))
  | readFile (name : String)
  | writeFile (name : String) (contents : String)
  | displayResults (companies_md : String) (people_md : String)
  | showCode (text : String)

/-- Outcome of the opaque `crew.kickoff` call: it either completes, leaving
`files` on disk and a printable result object, or raises an exception. -/
inductive KickoffOutcome
  | completes (files : List (String × String)) (results : String)
  | raises (msg : String)

/-- Reading a file from the post-kickoff disk: `some` contents, or `none`
when `open` raises `FileNotFoundError`. -/
def readOutputFile (files : List (String × String)) (name : String) :
    Option String :=
  (files.find? (fun p => p.1 == name)).map (fun p => p.2)

/-- The `if run_button:` block (lines 388-433): three vacuity checks in
order, then crew setup, the kickoff call and the file-read/display epilogue,
with the `try/except` branches around kickoff and around the reads. -/
def run_button_handler (cfg : SidebarConfig) (env : Env) (domain area : String)
    (num_companies contacts_per_company : Nat) (kick : KickoffOutcome) :
    List Event :=
  if !(truthy domain && truthy area) then
    [Event.showError "Please provide both industry domain and geographic area"]
  else if !(truthy env.serper_api_key && truthy env.exa_api_key) then
    [Event.showError "API keys for Serper and Exa are required"]
  else if (cfg.llm_option == LLMOption.openai && !(truthy env.openai_api_key)) ||
      (cfg.llm_option == LLMOption.groq && !(truthy env.groq_api_key)) then
    [Event.showError ("API key for " ++ llm_option_name cfg.llm_option ++ " is required")]
  else
    let crew := setup_crew cfg domain area num_companies contacts_per_company
    Event.progress "Starting lead generation process..." ::
    Event.progress "Finding companies in the specified industry and location..." ::
    Event.kickoffCall crew [("domain", domain), ("area", area)] ::
    (match kick with
     | .raises msg =>
        [Event.progress ("Error: " ++ msg),
         Event.showError ("An error occurred: " ++ msg)]
     | .completes files results =>
        Event.progress "Lead generation completed successfully!" ::
        (match readOutputFile files "companies.md" with
         | none =>
            [Event.readFile "companies.md",
             Event.showError "Output files were not generated. Please check the logs.",
             Event.showCode results]
         | some companies_md =>
            match readOutputFile files "people.md" with
            | none =>
               [Event.readFile "companies.md", Event.readFile "people.md",
                Event.showError "Output files were not generated. Please check the logs.",
                Event.showCode results]
            | some people_md =>
               [Event.readFile "companies.md", Event.readFile "people.md",
                Event.displayResults companies_md people_md]))

/-- All three validation checks of the run handler, conjoined. -/
def passesValidation (cfg : SidebarConfig) (env : Env) (domain area : String) :
    Bool :=
  (truthy domain && truthy area) &&
  (truthy env.serper_api_key && truthy env.exa_api_key) &&
  !((cfg.llm_option == LLMOption.openai && !(truthy env.openai_api_key)) ||
    (cfg.llm_option == LLMOption.groq && !(truthy env.groq_api_key)))

/-- One top-to-bottom run of the script: the form is rendered, then, when
the submit button was pressed, the run handler fires with the slider-clamped
numeric choices. -/
def app_script (cfg : SidebarConfig) (env : Env) (domain area : String)
    (num_companies_choice contacts_choice : Nat) (run_button : Bool)
    (kick : KickoffOutcome) : List Event :=
  Event.renderForm search_form ::
    (if run_button then
      run_button_handler cfg env domain area
        (st_slider 5 30 num_companies_choice) (st_slider 1 5 contacts_choice) kick
    else [])

/-- Recognizer for kickoff events in a trace. -/
def isKickoff : Event → Bool
  | .kickoffCall _ _ => true
  | _ => false

/-- Number of kickoff calls a trace performs. -/
def kickoffCount (events : List Event) : Nat :=
  (events.filter isKickoff).length

/-- Recognizer for file-write events in a trace. -/
def isWrite : Event → Bool
  | .writeFile _ _ => true
  | _ => false

/-- Formalization of the claimed Exa tool output format, written from the
claim text for comparison with the source-derived tool: one block per
result, blocks joined by two newlines, where the block for the result at
zero-based index `i` is a Title line, a URL line and a Highlight line each
tagged with `id=i`, the highlights inside a block joined by " | ". -/
def claimedExaFormat (results : List ExaResult) : String :=
  String.intercalate "\n\n"
    (((List.range results.length).zip results).map (fun p =>
      ("<Title id=" ++ toString p.1 ++ ">" ++ p.2.title ++ "</Title>") ++ "\n" ++
      ("<URL id=" ++ toString p.1 ++ ">" ++ p.2.url ++ "</URL>") ++ "\n" ++
      ("<Highlight id=" ++ toString p.1 ++ ">" ++
        String.intercalate " | " p.2.highlights ++ "</Highlight>")))

/-- Sample sidebar configuration used by concrete witnesses. -/
def cfg0 : SidebarConfig :=
  { llm_option := .openai, llm_model := "gpt-4o", temperature := 1/5 }

/-- Sample environment with every needed key set, for concrete witnesses. -/
def env0 : Env :=
  { serper_api_key := "serper-key", exa_api_key := "exa-key",
    openai_api_key := "openai-key", groq_api_key := "" }

/-- Sample environment with no key set, for concrete witnesses. -/
def envEmpty : Env :=
  { serper_api_key := "", exa_api_key := "",
    openai_api_key := "", groq_api_key := "" }

/-! Helper lemmas shared by the claim theorems. -/

/-- Unfolding of the conjoined validation predicate into the three checks
the handler performs, in their order. -/
theorem passes_validation_spec (cfg : SidebarConfig) (env : Env)
    (domain area : String) :
    passesValidation cfg env domain area = true ↔
      (truthy domain && truthy area) = true ∧
      (truthy env.serper_api_key && truthy env.exa_api_key) = true ∧
      ((cfg.llm_option == LLMOption.openai && !(truthy env.openai_api_key)) ||
       (cfg.llm_option == LLMOption.groq && !(truthy env.groq_api_key))) = false := by
  unfold passesValidation
  cases hX : (truthy domain && truthy area) <;>
  cases hY : (truthy env.serper_api_key && truthy env.exa_api_key) <;>
  cases hC : ((cfg.llm_option == LLMOption.openai && !(truthy env.openai_api_key)) ||
      (cfg.llm_option == LLMOption.groq && !(truthy env.groq_api_key))) <;>
  simp [hX, hY, hC]

/-- Handler trace when all checks pass and kickoff raises. -/
theorem handler_valid_raises (cfg : SidebarConfig) (env : Env)
    (domain area : String) (n c : Nat) (msg : String)
    (h : passesValidation cfg env domain area = true) :
    run_button_handler cfg env domain area n c (KickoffOutcome.raises msg) =
      [Event.progress "Starting lead generation process...",
       Event.progress "Finding companies in the specified industry and location...",
       Event.kickoffCall (setup_crew cfg domain area n c)
         [("domain", domain), ("area", area)],
       Event.progress ("Error: " ++ msg),
       Event.showError ("An error occurred: " ++ msg)] := by
  obtain ⟨hX, hY, hC⟩ := (passes_validation_spec cfg env domain area).1 h
  simp [run_button_handler, hX, hY, hC]

/-- Handler trace when all checks pass, kickoff completes and both output
files are on disk. -/
theorem handler_valid_completes_both (cfg : SidebarConfig) (env : Env)
    (domain area : String) (n c : Nat)
    (files : List (String × String)) (results companies_md people_md : String)
    (h : passesValidation cfg env domain area = true)
    (hc : readOutputFile files "companies.md" = some companies_md)
    (hp : readOutputFile files "people.md" = some people_md) :
    run_button_handler cfg env domain area n c
        (KickoffOutcome.completes files results) =
      [Event.progress "Starting lead generation process...",
       Event.progress "Finding companies in the specified industry and location...",
       Event.kickoffCall (setup_crew cfg domain area n c)
         [("domain", domain), ("area", area)],
       Event.progress "Lead generation completed successfully!",
       Event.readFile "companies.md", Event.readFile "people.md",
       Event.displayResults companies_md people_md] := by
  obtain ⟨hX, hY, hC⟩ := (passes_validation_spec cfg env domain area).1 h
  simp [run_button_handler, hX, hY, hC, hc, hp]

/-- Handler trace when all checks pass, kickoff completes but the first
output file is missing. -/
theorem handler_valid_completes_missing_companies (cfg : SidebarConfig)
    (env : Env) (domain area : String) (n c : Nat)
    (files : List (String × String)) (results : String)
    (h : passesValidation cfg env domain area = true)
    (hc : readOutputFile files "companies.md" = none) :
    run_button_handler cfg env domain area n c
        (KickoffOutcome.completes files results) =
      [Event.progress "Starting lead generation process...",
       Event.progress "Finding companies in the specified industry and location...",
       Event.kickoffCall (setup_crew cfg domain area n c)
         [("domain", domain), ("area", area)],
       Event.progress "Lead generation completed successfully!",
       Event.readFile "companies.md",
       Event.showError "Output files were not generated. Please check the logs.",
       Event.showCode results] := by
  obtain ⟨hX, hY, hC⟩ := (passes_validation_spec cfg env domain area).1 h
  simp [run_button_handler, hX, hY, hC, hc]

/-- Handler trace when all checks pass, kickoff completes, the first output
file exists but the second is missing. -/
theorem handler_valid_completes_missing_people (cfg : SidebarConfig)
    (env : Env) (domain area : String) (n c : Nat)
    (files : List (String × String)) (results companies_md : String)
    (h : passesValidation cfg env domain area = true)
    (hc : readOutputFile files "companies.md" = some companies_md)
    (hp : readOutputFile files "people.md" = none) :
    run_button_handler cfg env domain area n c
        (KickoffOutcome.completes files results) =
      [Event.progress "Starting lead generation process...",
       Event.progress "Finding companies in the specified industry and location...",
       Event.kickoffCall (setup_crew cfg domain area n c)
         [("domain", domain), ("area", area)],
       Event.progress "Lead generation completed successfully!",
       Event.readFile "companies.md", Event.readFile "people.md",
       Event.showError "Output files were not generated. Please check the logs.",
       Event.showCode results] := by
  obtain ⟨hX, hY, hC⟩ := (passes_validation_spec cfg env domain area).1 h
  simp [run_button_handler, hX, hY, hC, hc, hp]

/-- A validated run always performs exactly one kickoff call. -/
theorem kickoff_count_of_valid (cfg : SidebarConfig) (env : Env)
    (domain area : String) (n c : Nat) (kick : KickoffOutcome)
    (h : passesValidation cfg env domain area = true) :
    kickoffCount (run_button_handler cfg env domain area n c kick) = 1 := by
  cases kick with
  | raises msg =>
      rw [handler_valid_raises cfg env domain area n c msg h]
      rfl
  | completes files results =>
      cases hc : readOutputFile files "companies.md" with
      | none =>
          rw [handler_valid_completes_missing_companies cfg env domain area
            n c files results h hc]
          rfl
      | some companies_md =>
          cases hp : readOutputFile files "people.md" with
          | none =>
              rw [handler_valid_completes_missing_people cfg env domain area
                n c files results companies_md h hc hp]
              rfl
          | some people_md =>
              rw [handler_valid_completes_both cfg env domain area
                n c files results companies_md people_md h hc hp]
              rfl

/-- C1: the crew is configured with exactly two agents and exactly two
tasks under the sequential process, the second task (LinkedIn prospecting)
lists the first (company discovery) as its context hand-off, and every
validated run starts the pipeline through exactly one kickoff call. -/
theorem crew_shape_and_single_kickoff
    (cfg : SidebarConfig) (env : Env) (domain area : String)
    (num_companies contacts_per_company : Nat) (kick : KickoffOutcome)
    (h : passesValidation cfg env domain area = true) :
    (setup_crew cfg domain area num_companies contacts_per_company).agents.length = 2 ∧
    (setup_crew cfg domain area num_companies contacts_per_company).tasks.length = 2 ∧
    (setup_crew cfg domain area num_companies contacts_per_company).process =
      Process.sequential ∧
    (setup_crew cfg domain area num_companies contacts_per_company).tasks =
      [company_finder_task cfg domain area num_companies,
       linkedin_task cfg domain area num_companies contacts_per_company] ∧
    (linkedin_task cfg domain area num_companies contacts_per_company).context =
      [company_finder_task cfg domain area num_companies] ∧
    (company_finder_task cfg domain area num_companies).context = [] ∧
    kickoffCount (run_button_handler cfg env domain area num_companies
      contacts_per_company kick) = 1 :=
  ⟨rfl, rfl, rfl, rfl, rfl, rfl,
   kickoff_count_of_valid cfg env domain area num_companies
     contacts_per_company kick h⟩

/-- Concrete instantiation of `crew_shape_and_single_kickoff`. -/
theorem crew_shape_and_single_kickoff_witness :
    passesValidation cfg0 env0 "fintech" "London" = true ∧
    kickoffCount (run_button_handler cfg0 env0 "fintech" "London" 15 3
      (KickoffOutcome.raises "boom")) = 1 :=
  ⟨by decide,
   (crew_shape_and_single_kickoff cfg0 env0 "fintech" "London" 15 3
     (KickoffOutcome.raises "boom") (by decide)).2.2.2.2.2.2⟩

/-- C3: when the run button is pressed, the three checks fire in order --
non-empty inputs first, then the Serper/Exa keys, then the key of the
selected provider -- each failing check showing its error message as the
whole trace (so no crew and no kickoff call), and kickoff is invoked
exactly when all three pass. -/
theorem validation_precedence
    (cfg : SidebarConfig) (env : Env) (domain area : String)
    (num_companies contacts_per_company : Nat) (kick : KickoffOutcome) :
    ((truthy domain && truthy area) = false →
      run_button_handler cfg env domain area num_companies contacts_per_company kick =
        [Event.showError "Please provide both industry domain and geographic area"]) ∧
    ((truthy domain && truthy area) = true →
      (truthy env.serper_api_key && truthy env.exa_api_key) = false →
      run_button_handler cfg env domain area num_companies contacts_per_company kick =
        [Event.showError "API keys for Serper and Exa are required"]) ∧
    ((truthy domain && truthy area) = true →
      (truthy env.serper_api_key && truthy env.exa_api_key) = true →
      ((cfg.llm_option == LLMOption.openai && !(truthy env.openai_api_key)) ||
       (cfg.llm_option == LLMOption.groq && !(truthy env.groq_api_key))) = true →
      run_button_handler cfg env domain area num_companies contacts_per_company kick =
        [Event.showError ("API key for " ++ llm_option_name cfg.llm_option ++ " is required")]) ∧
    (passesValidation cfg env domain area = false →
      kickoffCount (run_button_handler cfg env domain area num_companies
        contacts_per_company kick) = 0) ∧
    (passesValidation cfg env domain area = true →
      kickoffCount (run_button_handler cfg env domain area num_companies
        contacts_per_company kick) = 1) := by
  refine ⟨?_, ?_, ?_, ?_, ?_⟩
  · intro hX
    simp [run_button_handler, hX]
  · intro hX hY
    simp [run_button_handler, hX, hY]
  · intro hX hY hC
    simp [run_button_handler, hX, hY, hC]
  · intro h
    cases hX : (truthy domain && truthy area) with
    | false => simp [run_button_handler, hX, kickoffCount, isKickoff]
    | true =>
        cases hY : (truthy env.serper_api_key && truthy env.exa_api_key) with
        | false => simp [run_button_handler, hX, hY, kickoffCount, isKickoff]
        | true =>
            cases hC : ((cfg.llm_option == LLMOption.openai && !(truthy env.openai_api_key)) ||
                (cfg.llm_option == LLMOption.groq && !(truthy env.groq_api_key))) with
            | true => simp [run_button_handler, hX, hY, hC, kickoffCount, isKickoff]
            | false =>
                exfalso
                rw [(passes_validation_spec cfg env domain area).2 ⟨hX, hY, hC⟩] at h
                simp at h
  · exact kickoff_count_of_valid cfg env domain area num_companies
      contacts_per_company kick

/-- Concrete instantiation of `validation_precedence`: with an empty domain
the trace is just the inputs error, even though the keys are also missing. -/
theorem validation_precedence_witness :
    run_button_handler cfg0 envEmpty "" "London" 15 3
      (KickoffOutcome.raises "x") =
      [Event.showError "Please provide both industry domain and geographic area"] :=
  (validation_precedence cfg0 envEmpty "" "London" 15 3
    (KickoffOutcome.raises "x")).1 (by decide)

set_option maxHeartbeats 2000000 in
/-- C4 counterexample: the agent goal strings handed to the library change
with the form inputs, so they are not static; here merely changing the
domain input changes the first agent goal. -/
theorem static_prompts_counterexample :
    (setup_crew cfg0 "healthcare" "New York" 15 3).agents.map Agent.goal ≠
    (setup_crew cfg0 "fintech" "New York" 15 3).agents.map Agent.goal := by
  decide

/-- C4 amended: the agent roles and backstories and the company task
expected-output are static strings; the agent goals, both task
descriptions and the LinkedIn task expected-output are fixed templates
into which only the form inputs (companies count, domain, area, contacts
count) are interpolated, independent of anything else. -/
theorem prompt_staticness_amended
    (cfg cfg' : SidebarConfig) (d d' a a' : String) (n n' c c' : Nat) :
    (company_finder_agent cfg d a n).role = (company_finder_agent cfg' d' a' n').role ∧
    (company_finder_agent cfg d a n).backstory =
      (company_finder_agent cfg' d' a' n').backstory ∧
    (linkedin_agent cfg c).role = (linkedin_agent cfg' c').role ∧
    (linkedin_agent cfg c).backstory = (linkedin_agent cfg' c').backstory ∧
    (company_finder_task cfg d a n).expected_output =
      (company_finder_task cfg' d' a' n').expected_output ∧
    (company_finder_agent cfg d a n).goal = (company_finder_agent cfg' d a n).goal ∧
    (company_finder_task cfg d a n).description =
      (company_finder_task cfg' d a n).description ∧
    (linkedin_agent cfg c).goal = (linkedin_agent cfg' c).goal ∧
    (linkedin_task cfg d a n c).description = (linkedin_task cfg' d' a' n' c).description ∧
    (linkedin_task cfg d a n c).expected_output =
      (linkedin_task cfg' d' a' n' c).expected_output :=
  by
  refine ⟨?_, ?_, ?_, ?_, ?_, ?_, ?_, ?_, ?_, ?_⟩ <;>
    simp only [company_finder_agent, linkedin_agent, company_finder_task,
      linkedin_task, Task.expected_output, Task.description]

/-- C2: the form collects exactly two free-text inputs (industry domain and
geographic area); a successful run hands them to the crew kickoff and
renders the contents of `companies.md` and `people.md`. -/
theorem successful_run_renders_both_files
    (cfg : SidebarConfig) (env : Env) (domain area : String)
    (num_companies contacts_per_company : Nat)
    (files : List (String × String)) (results companies_md people_md : String)
    (h : passesValidation cfg env domain area = true)
    (hc : readOutputFile files "companies.md" = some companies_md)
    (hp : readOutputFile files "people.md" = some people_md) :
    search_form.text_inputs =
      [("Industry Domain", "e.g., healthcare, fintech, SaaS"),
       ("Geographic Area", "e.g., New York, London, Singapore")] ∧
    search_form.text_inputs.length = 2 ∧
    run_button_handler cfg env domain area num_companies contacts_per_company
        (KickoffOutcome.completes files results) =
      [Event.progress "Starting lead generation process...",
       Event.progress "Finding companies in the specified industry and location...",
       Event.kickoffCall (setup_crew cfg domain area num_companies contacts_per_company)
         [("domain", domain), ("area", area)],
       Event.progress "Lead generation completed successfully!",
       Event.readFile "companies.md", Event.readFile "people.md",
       Event.displayResults companies_md people_md] :=
  ⟨rfl, rfl,
   handler_valid_completes_both cfg env domain area num_companies
     contacts_per_company files results companies_md people_md h hc hp⟩

/-- Concrete instantiation of `successful_run_renders_both_files`. -/
theorem successful_run_renders_both_files_witness :
    run_button_handler cfg0 env0 "fintech" "London" 15 3
        (KickoffOutcome.completes
          [("companies.md", "C-body"), ("people.md", "P-body")] "ok") =
      [Event.progress "Starting lead generation process...",
       Event.progress "Finding companies in the specified industry and location...",
       Event.kickoffCall (setup_crew cfg0 "fintech" "London" 15 3)
         [("domain", "fintech"), ("area", "London")],
       Event.progress "Lead generation completed successfully!",
       Event.readFile "companies.md", Event.readFile "people.md",
       Event.displayResults "C-body" "P-body"] :=
  (successful_run_renders_both_files cfg0 env0 "fintech" "London" 15 3
    [("companies.md", "C-body"), ("people.md", "P-body")] "ok" "C-body" "P-body"
    (by decide) rfl rfl).2.2

/-- A string whose left part is non-empty is non-empty. -/
theorem append_ne_empty_left (s t : String) (h : s ≠ "") : s ++ t ≠ "" := by
  intro he
  apply h
  apply String.ext
  have hd := congrArg String.data he
  rw [String.data_append] at hd
  exact ((List.append_eq_nil.1 hd).1).trans rfl

/-- Exhaustive case analysis of the handler trace: the trace is one of the
three error traces or one of the four post-kickoff traces. -/
theorem run_button_handler_shapes (cfg : SidebarConfig) (env : Env)
    (domain area : String) (n c : Nat) (kick : KickoffOutcome) :
    run_button_handler cfg env domain area n c kick =
      [Event.showError "Please provide both industry domain and geographic area"] ∨
    run_button_handler cfg env domain area n c kick =
      [Event.showError "API keys for Serper and Exa are required"] ∨
    run_button_handler cfg env domain area n c kick =
      [Event.showError ("API key for " ++ llm_option_name cfg.llm_option ++ " is required")] ∨
    (∃ msg, kick = KickoffOutcome.raises msg ∧
      run_button_handler cfg env domain area n c kick =
        [Event.progress "Starting lead generation process...",
         Event.progress "Finding companies in the specified industry and location...",
         Event.kickoffCall (setup_crew cfg domain area n c)
           [("domain", domain), ("area", area)],
         Event.progress ("Error: " ++ msg),
         Event.showError ("An error occurred: " ++ msg)]) ∨
    (∃ files results, kick = KickoffOutcome.completes files results ∧
      readOutputFile files "companies.md" = none ∧
      run_button_handler cfg env domain area n c kick =
        [Event.progress "Starting lead generation process...",
         Event.progress "Finding companies in the specified industry and location...",
         Event.kickoffCall (setup_crew cfg domain area n c)
           [("domain", domain), ("area", area)],
         Event.progress "Lead generation completed successfully!",
         Event.readFile "companies.md",
         Event.showError "Output files were not generated. Please check the logs.",
         Event.showCode results]) ∨
    (∃ files results companies_md, kick = KickoffOutcome.completes files results ∧
      readOutputFile files "companies.md" = some companies_md ∧
      readOutputFile files "people.md" = none ∧
      run_button_handler cfg env domain area n c kick =
        [Event.progress "Starting lead generation process...",
         Event.progress "Finding companies in the specified industry and location...",
         Event.kickoffCall (setup_crew cfg domain area n c)
           [("domain", domain), ("area", area)],
         Event.progress "Lead generation completed successfully!",
         Event.readFile "companies.md", Event.readFile "people.md",
         Event.showError "Output files were not generated. Please check the logs.",
         Event.showCode results]) ∨
    (∃ files results companies_md people_md,
      kick = KickoffOutcome.completes files results ∧
      readOutputFile files "companies.md" = some companies_md ∧
      readOutputFile files "people.md" = some people_md ∧
      run_button_handler cfg env domain area n c kick =
        [Event.progress "Starting lead generation process...",
         Event.progress "Finding companies in the specified industry and location...",
         Event.kickoffCall (setup_crew cfg domain area n c)
           [("domain", domain), ("area", area)],
         Event.progress "Lead generation completed successfully!",
         Event.readFile "companies.md", Event.readFile "people.md",
         Event.displayResults companies_md people_md]) := by
  cases hX : (truthy domain && truthy area) with
  | false =>
      left
      simp [run_button_handler, hX]
  | true =>
    cases hY : (truthy env.serper_api_key && truthy env.exa_api_key) with
    | false =>
        right; left
        simp [run_button_handler, hX, hY]
    | true =>
      cases hC : ((cfg.llm_option == LLMOption.openai && !(truthy env.openai_api_key)) ||
          (cfg.llm_option == LLMOption.groq && !(truthy env.groq_api_key))) with
      | true =>
          right; right; left
          simp [run_button_handler, hX, hY, hC]
      | false =>
          have h : passesValidation cfg env domain area = true :=
            (passes_validation_spec cfg env domain area).2 ⟨hX, hY, hC⟩
          cases kick with
          | raises msg =>
              right; right; right; left
              exact ⟨msg, rfl, handler_valid_raises cfg env domain area n c msg h⟩
          | completes files results =>
            cases hc : readOutputFile files "companies.md" with
            | none =>
                right; right; right; right; left
                exact ⟨files, results, rfl, hc,
                  handler_valid_completes_missing_companies cfg env domain area
                    n c files results h hc⟩
            | some companies_md =>
              cases hp : readOutputFile files "people.md" with
              | none =>
                  right; right; right; right; right; left
                  exact ⟨files, results, companies_md, rfl, hc, hp,
                    handler_valid_completes_missing_people cfg env domain area
                      n c files results companies_md h hc hp⟩
              | some people_md =>
                  right; right; right; right; right; right
                  exact ⟨files, results, companies_md, people_md, rfl, hc, hp,
                    handler_valid_completes_both cfg env domain area
                      n c files results companies_md people_md h hc hp⟩

/-- C5: exactly one tool is registered per agent -- the Serper tool for the
company finder and the Exa tool for the LinkedIn agent -- and the Exa tool
only forwards its question to the hosted API as one request with fixed
parameters, returning a rendering of whatever response comes back. -/
theorem one_tool_per_agent_passthrough
    (cfg : SidebarConfig) (domain area : String) (n c : Nat)
    (question : String) (response : ExaResponse) :
    (setup_crew cfg domain area n c).agents.map Agent.tools =
      [[ToolRef.serperDevTool], [ToolRef.exaSearchAndContents]] ∧
    (run_search_and_get_contents_tool question response).1 =
      [exaSearchRequest question] ∧
    (exaSearchRequest question).query = question ∧
    (exaSearchRequest question).type = "neural" ∧
    (exaSearchRequest question).num_results = 30 ∧
    (exaSearchRequest question).highlights = true ∧
    (run_search_and_get_contents_tool question response).2 =
      search_and_get_contents_tool response := by
  refine ⟨?_, rfl, rfl, rfl, rfl, rfl, rfl⟩
  simp only [setup_crew, company_finder_agent, linkedin_agent, List.map]

/-- C6: the handler never emits a file write, reads only `companies.md` and
`people.md`, displays exactly what it read from those files, and the two
tasks declare exactly those paths as the files the library must write. -/
theorem state_lives_in_library_written_files
    (cfg : SidebarConfig) (env : Env) (domain area : String) (n c : Nat)
    (kick : KickoffOutcome) :
    (run_button_handler cfg env domain area n c kick).filter isWrite = [] ∧
    (∀ name, Event.readFile name ∈ run_button_handler cfg env domain area n c kick →
      name = "companies.md" ∨ name = "people.md") ∧
    (∀ files results companies_md people_md,
      kick = KickoffOutcome.completes files results →
      Event.displayResults companies_md people_md ∈
        run_button_handler cfg env domain area n c kick →
      readOutputFile files "companies.md" = some companies_md ∧
      readOutputFile files "people.md" = some people_md) ∧
    (company_finder_task cfg domain area n).output_file = "companies.md" ∧
    (linkedin_task cfg domain area n c).output_file = "people.md" := by
  refine ⟨?_, ?_, ?_, ?_, ?_⟩
  · rcases run_button_handler_shapes cfg env domain area n c kick with
      h | h | h | ⟨msg, _, h⟩ | ⟨f, r, _, _, h⟩ | ⟨f, r, cm, _, _, _, h⟩ |
      ⟨f, r, cm, pm, _, _, _, h⟩ <;> rw [h] <;> rfl
  · intro name hmem
    rcases run_button_handler_shapes cfg env domain area n c kick with
      h | h | h | ⟨msg, _, h⟩ | ⟨f, r, _, _, h⟩ | ⟨f, r, cm, _, _, _, h⟩ |
      ⟨f, r, cm, pm, _, _, _, h⟩ <;> rw [h] at hmem <;> simp at hmem <;> tauto
  · intro files results companies_md people_md hk hmem
    subst hk
    rcases run_button_handler_shapes cfg env domain area n c
        (KickoffOutcome.completes files results) with
      h | h | h | ⟨msg, heq, h⟩ | ⟨f, r, heq, hc, h⟩ | ⟨f, r, cm, heq, hc, hp, h⟩ |
      ⟨f, r, cm, pm, heq, hc, hp, h⟩
    · rw [h] at hmem; simp at hmem
    · rw [h] at hmem; simp at hmem
    · rw [h] at hmem; simp at hmem
    · cases heq
    · rw [h] at hmem; simp at hmem
    · rw [h] at hmem; simp at hmem
    · injection heq with hf hr
      subst hf; subst hr
      rw [h] at hmem
      simp at hmem
      obtain ⟨h1, h2⟩ := hmem
      subst h1; subst h2
      exact ⟨hc, hp⟩
  · simp only [company_finder_task, Task.output_file]
  · simp only [linkedin_task, Task.output_file]

/-- Concrete instantiation of `state_lives_in_library_written_files`. -/
theorem state_lives_in_library_written_files_witness :
    "companies.md" = "companies.md" ∨ "companies.md" = "people.md" :=
  (state_lives_in_library_written_files cfg0 env0 "fintech" "London" 15 3
      (KickoffOutcome.completes [("companies.md", "C"), ("people.md", "P")] "ok")).2.1
    "companies.md"
    (by rw [handler_valid_completes_both cfg0 env0 "fintech" "London" 15 3
          [("companies.md", "C"), ("people.md", "P")] "ok" "C" "P"
          (by decide) rfl rfl]
        simp)

/-- C7: each task built by the app has a description, an expected-output
text and an output file path, all non-empty, and is bound to exactly one
agent, which is one of the crew agents. -/
theorem tasks_shape_and_fields (cfg : SidebarConfig) (domain area : String)
    (n c : Nat) :
    (setup_crew cfg domain area n c).tasks =
      [company_finder_task cfg domain area n,
       linkedin_task cfg domain area n c] ∧
    ∀ t ∈ (setup_crew cfg domain area n c).tasks,
      t.description ≠ "" ∧ t.expected_output ≠ "" ∧ t.output_file ≠ "" ∧
      ∃ ag, t.agent = some ag ∧ ag ∈ (setup_crew cfg domain area n c).agents := by
  refine ⟨rfl, ?_⟩
  intro t ht
  have ht' : t = company_finder_task cfg domain area n ∨
      t = linkedin_task cfg domain area n c := by
    simpa [setup_crew] using ht
  rcases ht' with rfl | rfl
  · refine ⟨?_, ?_, ?_, company_finder_agent cfg domain area n, ?_, ?_⟩
    · simp only [company_finder_task, Task.description, company_finder_task_description]
      repeat' apply append_ne_empty_left
      decide
    · simp only [company_finder_task, Task.expected_output, company_finder_task_expected_output]
      repeat' apply append_ne_empty_left
      decide
    · simp only [company_finder_task, Task.output_file]
      decide
    · simp only [company_finder_task, Task.agent]
    · simp [setup_crew]
  · refine ⟨?_, ?_, ?_, linkedin_agent cfg c, ?_, ?_⟩
    · simp only [linkedin_task, Task.description, linkedin_task_description]
      repeat' apply append_ne_empty_left
      decide
    · simp only [linkedin_task, Task.expected_output, linkedin_task_expected_output]
      repeat' apply append_ne_empty_left
      decide
    · simp only [linkedin_task, Task.output_file]
      decide
    · simp only [linkedin_task, Task.agent]
    · simp [setup_crew]

/-- Concrete instantiation of `tasks_shape_and_fields`. -/
theorem tasks_shape_and_fields_witness :
    (linkedin_task cfg0 "fintech" "London" 15 3).output_file ≠ "" :=
  ((tasks_shape_and_fields cfg0 "fintech" "London" 15 3).2
    (linkedin_task cfg0 "fintech" "London" 15 3) (by simp [setup_crew])).2.2.1

/-- C8: a script run renders the form first, and a results display happens
only in the trace where the form was rendered, kickoff was called and both
files were read before it, in exactly that order. -/
theorem render_kickoff_display_order
    (cfg : SidebarConfig) (env : Env) (domain area : String)
    (nChoice cChoice : Nat) (run_button : Bool) (kick : KickoffOutcome) :
    (app_script cfg env domain area nChoice cChoice run_button kick).head? =
      some (Event.renderForm search_form) ∧
    ∀ companies_md people_md,
      Event.displayResults companies_md people_md ∈
        app_script cfg env domain area nChoice cChoice run_button kick →
      app_script cfg env domain area nChoice cChoice run_button kick =
        [Event.renderForm search_form,
         Event.progress "Starting lead generation process...",
         Event.progress "Finding companies in the specified industry and location...",
         Event.kickoffCall
           (setup_crew cfg domain area (st_slider 5 30 nChoice) (st_slider 1 5 cChoice))
           [("domain", domain), ("area", area)],
         Event.progress "Lead generation completed successfully!",
         Event.readFile "companies.md", Event.readFile "people.md",
         Event.displayResults companies_md people_md] := by
  constructor
  · cases run_button <;> rfl
  · intro companies_md people_md hmem
    cases run_button with
    | false => simp [app_script] at hmem
    | true =>
        unfold app_script at hmem ⊢
        simp only [if_true] at hmem ⊢
        rcases run_button_handler_shapes cfg env domain area
            (st_slider 5 30 nChoice) (st_slider 1 5 cChoice) kick with
          h | h | h | ⟨msg, _, h⟩ | ⟨f, r, _, _, h⟩ | ⟨f, r, cm, _, _, _, h⟩ |
          ⟨f, r, cm, pm, _, _, _, h⟩ <;> rw [h] at hmem ⊢ <;> simp at hmem
        obtain ⟨h1, h2⟩ := hmem
        subst h1; subst h2
        rfl

/-- Concrete instantiation of `render_kickoff_display_order`. -/
theorem render_kickoff_display_order_witness :
    (app_script cfg0 env0 "fintech" "London" 15 3 true
      (KickoffOutcome.completes [("companies.md", "C"), ("people.md", "P")] "ok")).head? =
      some (Event.renderForm search_form) :=
  (render_kickoff_display_order cfg0 env0 "fintech" "London" 15 3 true
    (KickoffOutcome.completes [("companies.md", "C"), ("people.md", "P")] "ok")).1

/-- A validated run has its kickoff event in the script trace. -/
theorem kickoff_event_mem_of_valid (cfg : SidebarConfig) (env : Env)
    (domain area : String) (n c : Nat) (kick : KickoffOutcome)
    (h : passesValidation cfg env domain area = true) :
    Event.kickoffCall (setup_crew cfg domain area n c)
        [("domain", domain), ("area", area)] ∈
      run_button_handler cfg env domain area n c kick := by
  cases kick with
  | raises msg =>
      rw [handler_valid_raises cfg env domain area n c msg h]
      simp
  | completes files results =>
      cases hc : readOutputFile files "companies.md" with
      | none =>
          rw [handler_valid_completes_missing_companies cfg env domain area
            n c files results h hc]
          simp
      | some companies_md =>
          cases hp : readOutputFile files "people.md" with
          | none =>
              rw [handler_valid_completes_missing_people cfg env domain area
                n c files results companies_md h hc hp]
              simp
          | some people_md =>
              rw [handler_valid_completes_both cfg env domain area
                n c files results companies_md people_md h hc hp]
              simp

/-- C9: the sliders keep the companies count in 5..30 and the contacts
count in 1..5, and exactly the clamped slider values are interpolated into
the goal, description and expected-output strings of the crew the kickoff
call receives. -/
theorem slider_bounds_and_interpolation
    (cfg : SidebarConfig) (env : Env) (domain area : String)
    (nChoice cChoice : Nat) (kick : KickoffOutcome)
    (h : passesValidation cfg env domain area = true) :
    5 ≤ st_slider 5 30 nChoice ∧ st_slider 5 30 nChoice ≤ 30 ∧
    1 ≤ st_slider 1 5 cChoice ∧ st_slider 1 5 cChoice ≤ 5 ∧
    search_form.sliders = [("Number of Companies to Find", 5, 30, 15),
                           ("Contacts per Company", 1, 5, 3)] ∧
    Event.kickoffCall
        (setup_crew cfg domain area (st_slider 5 30 nChoice) (st_slider 1 5 cChoice))
        [("domain", domain), ("area", area)] ∈
      app_script cfg env domain area nChoice cChoice true kick ∧
    (company_finder_agent cfg domain area (st_slider 5 30 nChoice)).goal =
      "Identify and extract a list of " ++ toString (st_slider 5 30 nChoice) ++
        " companies based on the " ++ domain ++ " industry domain in " ++ area ++
        " for business development outreach." ∧
    (linkedin_agent cfg (st_slider 1 5 cChoice)).goal =
      "Find " ++ toString (st_slider 1 5 cChoice) ++
        " professional profiles from each company identified" ∧
    (company_finder_task cfg domain area (st_slider 5 30 nChoice)).description =
      company_finder_task_description (st_slider 5 30 nChoice) domain area ∧
    (linkedin_task cfg domain area (st_slider 5 30 nChoice) (st_slider 1 5 cChoice)).description =
      linkedin_task_description (st_slider 1 5 cChoice) ∧
    (linkedin_task cfg domain area (st_slider 5 30 nChoice) (st_slider 1 5 cChoice)).expected_output =
      linkedin_task_expected_output (st_slider 1 5 cChoice) := by
  refine ⟨?_, ?_, ?_, ?_, rfl, ?_, ?_, ?_, ?_, ?_, ?_⟩
  · exact le_max_left 5 (min 30 nChoice)
  · exact max_le (by norm_num) (min_le_left 30 nChoice)
  · exact le_max_left 1 (min 5 cChoice)
  · exact max_le (by norm_num) (min_le_left 5 cChoice)
  · unfold app_script
    simp only [if_true]
    exact List.mem_cons_of_mem _
      (kickoff_event_mem_of_valid cfg env domain area
        (st_slider 5 30 nChoice) (st_slider 1 5 cChoice) kick h)
  · simp only [company_finder_agent]
  · simp only [linkedin_agent]
  · simp only [company_finder_task, Task.description]
  · simp only [linkedin_task, Task.description]
  · simp only [linkedin_task, Task.expected_output]

/-- Concrete instantiation of `slider_bounds_and_interpolation`: a slider
choice of 0 companies is clamped to 5. -/
theorem slider_bounds_and_interpolation_witness :
    5 ≤ st_slider 5 30 0 ∧ st_slider 5 30 0 ≤ 30 :=
  ⟨(slider_bounds_and_interpolation cfg0 env0 "fintech" "London" 0 0
      (KickoffOutcome.raises "x") (by decide)).1,
   (slider_bounds_and_interpolation cfg0 env0 "fintech" "London" 0 0
      (KickoffOutcome.raises "x") (by decide)).2.1⟩

/-- Blockwise agreement of the tool rendering with the claimed line format. -/
theorem exaRender_eq_claimed_block (idx : Nat) (r : ExaResult) :
    exaRenderResult idx r =
      ("<Title id=" ++ toString idx ++ ">" ++ r.title ++ "</Title>") ++ "\n" ++
      ("<URL id=" ++ toString idx ++ ">" ++ r.url ++ "</URL>") ++ "\n" ++
      ("<Highlight id=" ++ toString idx ++ ">" ++
        String.intercalate " | " r.highlights ++ "</Highlight>") := by
  unfold exaRenderResult
  apply String.ext
  simp [String.data_append, List.append_assoc]

/-- C10: the Exa tool output is exactly the claimed format -- one block per
result joined by two newlines, the block at zero-based index i made of a
Title, URL and Highlight line each tagged id=i, highlights joined by
" | " -- and an empty result list yields the empty string. -/
theorem exa_tool_output_format (response : ExaResponse) :
    search_and_get_contents_tool response = claimedExaFormat response.results ∧
    search_and_get_contents_tool { results := [] } = "" := by
  constructor
  · unfold search_and_get_contents_tool claimedExaFormat
    rw [List.enum_eq_zip_range]
    exact congrArg (String.intercalate "\n\n")
      (List.map_congr_left (fun p _ => exaRender_eq_claimed_block p.1 p.2))
  · rfl

end LeadSynapse
